import Mathlib

/-!
Shallow embedding of the `RsaPrivateKeySecret` construct of aws-delivlib
(`src/lib/code-signing/private-key.ts`).

The construct wires up:
  * a singleton Lambda handler with an execution role,
  * an ARN pattern for a not-yet-created Secrets Manager secret,
  * policy statements on the role, on the optional KMS key's resource
    policy, and on a separate `iam.Policy` object, and
  * explicit dependency edges on the provisioning custom resource.

Pure data: each statement-builder call of `@aws-cdk/aws-iam` is mirrored by
a function on a `PolicyStatement` record, the constructor by a function from
the ambient stack context, the Lambda environment and the props record to a
record of all attached statements, created policies, dependency edges and
the custom-resource request payload.
-/

/-- One IAM condition entry as added by `PolicyStatement.addCondition`:
a condition operator, a context key, and the list of accepted values. -/
structure Condition where
  op : String
  key : String
  values : List String
deriving DecidableEq

/-- An IAM policy statement as assembled by the `@aws-cdk/aws-iam` builder
methods used in `private-key.ts`. -/
structure PolicyStatement where
  actions : List String := []
  resources : List String := []
  principals : List String := []
  conditions : List Condition := []
  sid : Option String := none
deriving DecidableEq

/-- `PolicyStatement#addAction`. -/
def PolicyStatement.addAction (s : PolicyStatement) (a : String) : PolicyStatement :=
  { s with actions := s.actions ++ [a] }

/-- `PolicyStatement#addActions` (variadic in TS, list here). -/
def PolicyStatement.addActions (s : PolicyStatement) (acts : List String) : PolicyStatement :=
  { s with actions := s.actions ++ acts }

/-- `PolicyStatement#addResource`. -/
def PolicyStatement.addResource (s : PolicyStatement) (r : String) : PolicyStatement :=
  { s with resources := s.resources ++ [r] }

/-- `PolicyStatement#addAllResources`, which adds the `"*"` resource. -/
def PolicyStatement.addAllResources (s : PolicyStatement) : PolicyStatement :=
  s.addResource "*"

/-- `PolicyStatement#addAwsPrincipal` (an ARN principal). -/
def PolicyStatement.addAwsPrincipal (s : PolicyStatement) (p : String) : PolicyStatement :=
  { s with principals := s.principals ++ [p] }

/-- `PolicyStatement#addPrincipal`; the embedding identifies a principal with
the string rendering of its policy fragment. -/
def PolicyStatement.addPrincipal (s : PolicyStatement) (p : String) : PolicyStatement :=
  { s with principals := s.principals ++ [p] }

/-- `PolicyStatement#addCondition`: one operator with a key/values map entry. -/
def PolicyStatement.addCondition (s : PolicyStatement) (op key : String)
    (vals : List String) : PolicyStatement :=
  { s with conditions := s.conditions ++ [⟨op, key, vals⟩] }

/-- `PolicyStatement#describe`, recording the statement description. -/
def PolicyStatement.describe (s : PolicyStatement) (d : String) : PolicyStatement :=
  { s with sid := some d }

/-- The ambient stack context consulted by `cdk.Stack.find(this)`. -/
structure StackContext where
  partition : String
  region : String
  account : String
deriving DecidableEq

/-- `Stack#formatArn` of the old CDK, with an explicit `sep` component:
`arn:<partition>:<service>:<region>:<account>:<resource><sep><resourceName>`. -/
def formatArn (st : StackContext) (service resource sep resourceName : String) : String :=
  "arn:" ++ st.partition ++ ":" ++ service ++ ":" ++ st.region ++ ":" ++ st.account ++ ":"
    ++ resource ++ sep ++ resourceName

/-- `cdk.DeletionPolicy` of the old CDK. -/
inductive DeletionPolicy
  | delete
  | retain
  | snapshot
deriving DecidableEq

/-- `RsaPrivateKeySecretProps`. The optional encryption key is carried by the
only datum the constructor reads from it, its `keyArn`; its
`addToResourcePolicy` sink is an output of the construct function. -/
structure RsaPrivateKeySecretProps where
  keySize : Int
  secretName : String
  description : Option String := none
  secretEncryptionKey : Option String := none
  deletionPolicy : Option DeletionPolicy := none
deriving DecidableEq

/-- Ambient facts about the singleton handler function the constructor
creates: the ARN of its execution role (the Lambda construct always creates
one), its function name, and the content hash of its code directory. -/
structure LambdaEnv where
  roleArn : String
  functionName : String
  codeHash : String
deriving DecidableEq

/-- Modelled from the spec: `hashFileOrDirectory` (defined in
`src/lib/util`, a file not among the provided sources) computes a content
fingerprint of the handler's code directory, changing exactly when the
backend's own logic changes; the fingerprint is carried as a field of the
ambient Lambda environment. -/
def hashFileOrDirectory (env : LambdaEnv) : String :=
  env.codeHash

/-- An `iam.Policy` object: a named policy attached to a list of roles,
holding its own statements (distinct from the roles' inline statements). -/
structure IamPolicy where
  policyId : String
  roles : List String
  statements : List PolicyStatement
deriving DecidableEq

/-- The `cfn.CustomResource` properties dispatched to the provisioning
backend, together with the resource type tag. -/
structure ProvisioningRequest where
  resourceType : String
  resourceVersion : String
  description : Option String
  keySize : Int
  secretName : String
  kmsKeyId : Option String
deriving DecidableEq

/-- Everything the constructor attaches or creates, observable per target:
inline role statements, key resource-policy statements, separate `iam.Policy`
objects, dependency edges `(from, to)` on construct-node ids, the dispatched
request, the applied deletion policy, the props record as left behind by the
constructor (it mutates its argument), and the construct's stored fields. -/
structure ConstructResult where
  secretArnLike : String
  rolePolicyStatements : List PolicyStatement
  keyResourcePolicyStatements : List PolicyStatement
  grantPolicies : List IamPolicy
  dependencies : List (String × String)
  request : ProvisioningRequest
  appliedDeletionPolicy : DeletionPolicy
  propsAfter : RsaPrivateKeySecretProps
  masterKey : Option String
  secretArn : String
deriving DecidableEq

/-- The `kms:ViaService` endpoint string built in `private-key.ts`:
`secretsmanager.<region>.amazonaws.com`. -/
def viaService (region : String) : String :=
  "secretsmanager." ++ region ++ ".amazonaws.com"

/-- `secretName.replace(/[^0-9A-Za-z]/g, '')`. -/
def sanitizeName (s : String) : String :=
  String.mk (s.data.filter fun c => c.isAlphanum)

/-- Node id of the provisioning custom resource (`Resource`). -/
def secretNode : String := "Resource"

/-- Node id of the handler's execution role. -/
def roleNode : String := "ResourceHandler/ServiceRole"

/-- Node id of the separate key-grant policy object. -/
def keyGrantNode : String := "GrantLambdaRoleKeyAccess"

/-- The constructor of `RsaPrivateKeySecret`, as a function from the stack
context, the handler environment and the props to its observable effects. -/
def rsaPrivateKeySecret (st : StackContext) (env : LambdaEnv)
    (props0 : RsaPrivateKeySecretProps) : ConstructResult :=
  let props : RsaPrivateKeySecretProps :=
    { props0 with deletionPolicy := some (props0.deletionPolicy.getD DeletionPolicy.retain) }
  let secretArnLike :=
    formatArn st "secretsmanager" "secret" ":" (props.secretName ++ "-??????")
  let rolePolicyStatements :=
    [({} : PolicyStatement).addActions
        ["secretsmanager:CreateSecret", "secretsmanager:DeleteSecret",
         "secretsmanager:UpdateSecret"]
      |>.addResource secretArnLike]
  let keyResourcePolicyStatements :=
    match props.secretEncryptionKey with
    | none => []
    | some _ =>
      [({} : PolicyStatement).describe
          ("Allow use via AWS Secrets Manager by CustomResource handler " ++ env.functionName)
        |>.addAwsPrincipal env.roleArn
        |>.addActions ["kms:Decrypt", "kms:GenerateDataKey"]
        |>.addAllResources
        |>.addCondition "StringEquals" "kms:ViaService" [viaService st.region]
        |>.addCondition "ArnLike" "kms:EncryptionContext:SecretARN" [secretArnLike]]
  let request : ProvisioningRequest :=
    { resourceType := "Custom::RsaPrivateKeySecret"
      resourceVersion := hashFileOrDirectory env
      description := props.description
      keySize := props.keySize
      secretName := props.secretName
      kmsKeyId := props.secretEncryptionKey }
  let grantPolicies :=
    match props.secretEncryptionKey with
    | none => []
    | some keyArn =>
      [{ policyId := keyGrantNode
         roles := [env.roleArn]
         statements :=
           [({} : PolicyStatement).describe
               ("AWSSecretsManager" ++ sanitizeName props.secretName ++ "CMK")
             |>.addActions ["kms:Decrypt", "kms:GenerateDataKey"]
             |>.addResource keyArn
             |>.addCondition "StringEquals" "kms:ViaService" [viaService st.region]
             |>.addCondition "StringLike" "kms:EncryptionContext:SecretARN"
                 [secretArnLike, "RequestToValidateKeyAccess"]] }]
  let dependencies :=
    (secretNode, roleNode)
      :: (match props.secretEncryptionKey with
          | none => []
          | some _ => [(secretNode, keyGrantNode)])
  { secretArnLike := secretArnLike
    rolePolicyStatements := rolePolicyStatements
    keyResourcePolicyStatements := keyResourcePolicyStatements
    grantPolicies := grantPolicies
    dependencies := dependencies
    request := request
    appliedDeletionPolicy := props0.deletionPolicy.getD DeletionPolicy.retain
    propsAfter := props
    masterKey := props.secretEncryptionKey
    secretArn := "getatt:Resource.SecretArn" }

/-- The fields of a constructed `RsaPrivateKeySecret` instance that
`grantGetSecretValue` consults. -/
structure SecretRef where
  secretArn : String
  secretArnLike : String
  masterKey : Option String
  region : String
deriving DecidableEq

/-- The statements `grantGetSecretValue` adds: to the grantee's identity
policy and to the master key's resource policy. -/
structure GrantResult where
  granteeStatements : List PolicyStatement
  keyResourceStatements : List PolicyStatement
deriving DecidableEq

/-- `RsaPrivateKeySecret#grantGetSecretValue(grantee)`. -/
def grantGetSecretValue (self : SecretRef) (grantee : String) : GrantResult :=
  let base :=
    [({} : PolicyStatement).addAction "secretsmanager:GetSecretValue"
      |>.addResource self.secretArn]
  match self.masterKey with
  | none => { granteeStatements := base, keyResourceStatements := [] }
  | some keyArn =>
    { granteeStatements := base ++
        [({} : PolicyStatement).addAction "kms:Decrypt"
          |>.addResource keyArn
          |>.addCondition "StringEquals" "kms:ViaService" [viaService self.region]
          |>.addCondition "ArnEquals" "kms:EncryptionContext:SecretARN" [self.secretArn]]
      keyResourceStatements :=
        [({} : PolicyStatement).addAction "kms:Decrypt"
          |>.addAllResources
          |>.addPrincipal grantee
          |>.addCondition "StringEquals" "kms:ViaService" [viaService self.region]
          |>.addCondition "ArnLike" "kms:EncryptionContext:SecretARN" [self.secretArnLike]] }

/-- Policy composition on the two mutated targets of `grantGetSecretValue`:
the grantee's identity policy and the key's resource policy; each call
appends its statements (append-only composition). -/
structure PolicyState where
  granteePolicy : List PolicyStatement
  keyResourcePolicy : List PolicyStatement
deriving DecidableEq

/-- One `grantGetSecretValue` call as a transformer of the policy state. -/
def applyGrant (self : SecretRef) (grantee : String) (st : PolicyState) : PolicyState :=
  let g := grantGetSecretValue self grantee
  { granteePolicy := st.granteePolicy ++ g.granteeStatements
    keyResourcePolicy := st.keyResourcePolicy ++ g.keyResourceStatements }

/-- AWS `StringLike` / `ArnLike` wildcard matching over character lists:
`*` matches any run of characters, `?` exactly one character, and any other
pattern character only itself. -/
def globMatch : List Char → List Char → Bool
  | [], s => s.isEmpty
  | p :: ps, s =>
    if p = '*' then
      match s with
      | [] => globMatch ps []
      | _ :: cs => globMatch ps s || globMatch (p :: ps) cs
    else
      match s with
      | [] => false
      | c :: cs => (p == '?' || p == c) && globMatch ps cs
termination_by p s => (p.length, s.length)

/-- Wildcard matching on strings. -/
def globMatchStr (pat s : String) : Bool :=
  globMatch pat.data s.data

/-- The request context an IAM condition block is evaluated against; only the
two context keys used by `private-key.ts` are relevant. -/
structure KeyUseContext where
  viaSvc : String
  secretARN : String
deriving DecidableEq

/-- The value a context assigns to a condition key. -/
def lookupCtx (c : KeyUseContext) (k : String) : String :=
  if k = "kms:ViaService" then c.viaSvc
  else if k = "kms:EncryptionContext:SecretARN" then c.secretARN
  else ""

/-- Evaluation of one condition entry: equality operators compare against any
listed value, `Like` operators wildcard-match against any listed value. -/
def condHolds (c : KeyUseContext) (cond : Condition) : Bool :=
  if cond.op = "StringEquals" || cond.op = "ArnEquals" then
    cond.values.any fun v => lookupCtx c cond.key == v
  else if cond.op = "StringLike" || cond.op = "ArnLike" then
    cond.values.any fun v => globMatchStr v (lookupCtx c cond.key)
  else false

/-- A statement applies in a context when all its condition entries hold. -/
def stmtApplies (c : KeyUseContext) (s : PolicyStatement) : Bool :=
  s.conditions.all (condHolds c)

/-- An access query: who asks to do what on which resource, in which
request context. -/
structure AccessQuery where
  principal : String
  action : String
  resource : String
  ctx : KeyUseContext
deriving DecidableEq

/-- Granted-permission semantics of one statement: the principal is covered
(identity-policy statements carry no principal and bind to their target), the
action is listed, some resource entry matches, and all conditions hold. -/
def PolicyStatement.permits (s : PolicyStatement) (q : AccessQuery) : Bool :=
  (s.principals.isEmpty || s.principals.contains q.principal)
    && s.actions.contains q.action
    && (s.resources.any fun r => globMatchStr r q.resource)
    && stmtApplies q.ctx s

/-- A policy permits a query when some statement permits it. -/
def policyPermits (l : List PolicyStatement) (q : AccessQuery) : Bool :=
  l.any fun s => s.permits q

/-- A pattern without wildcard characters. -/
def NoWild (l : List Char) : Prop :=
  ∀ c ∈ l, c ≠ '*' ∧ c ≠ '?'

instance : DecidablePred NoWild := fun l =>
  inferInstanceAs (Decidable (∀ c ∈ l, c ≠ '*' ∧ c ≠ '?'))

theorem globMatch_nil (s : List Char) : globMatch [] s = s.isEmpty := by
  simp [globMatch]

theorem globMatch_lit_nil {p : Char} (ps : List Char) (hp : p ≠ '*') :
    globMatch (p :: ps) [] = false := by
  simp [globMatch, hp]

theorem globMatch_lit_cons {p : Char} (ps : List Char) (c : Char) (cs : List Char)
    (hp : p ≠ '*') :
    globMatch (p :: ps) (c :: cs) = ((p == '?' || p == c) && globMatch ps cs) := by
  simp [globMatch, hp]

/-- A run of `n` question marks matches exactly the strings of length `n`. -/
theorem globMatch_replicate_qmark (n : Nat) (s : List Char) :
    globMatch (List.replicate n '?') s = true ↔ s.length = n := by
  induction n generalizing s with
  | zero => cases s <;> simp [globMatch]
  | succ n ih =>
    cases s with
    | nil =>
      rw [List.replicate_succ, globMatch_lit_nil _ (by decide)]
      simp
    | cons c cs =>
      rw [List.replicate_succ, globMatch_lit_cons _ _ _ (by decide)]
      simp [ih]

/-- A wildcard-free literal run at the head of a pattern must be consumed
verbatim from the subject. -/
theorem globMatch_append_lit (l p s : List Char) (hl : NoWild l) :
    globMatch (l ++ p) s = true ↔ ∃ t, s = l ++ t ∧ globMatch p t = true := by
  induction l generalizing s with
  | nil => simp
  | cons a l ih =>
    obtain ⟨ha, ha'⟩ := hl a (List.mem_cons_self a l)
    have hl' : NoWild l := fun c hc => hl c (List.mem_cons_of_mem a hc)
    cases s with
    | nil =>
      rw [List.cons_append, globMatch_lit_nil _ ha]
      simp
    | cons c cs =>
      rw [List.cons_append, globMatch_lit_cons _ _ _ ha]
      simp only [Bool.and_eq_true, Bool.or_eq_true, beq_iff_eq, ih cs hl']
      constructor
      · rintro ⟨hc, t, rfl, hm⟩
        rcases hc with hc | hc
        · exact absurd hc ha'
        · exact ⟨t, by simp [hc], hm⟩
      · rintro ⟨t, ht, hm⟩
        rw [List.cons_append] at ht
        simp only [List.cons.injEq] at ht
        exact ⟨Or.inr ht.1.symm, t, ht.2, hm⟩

/-- A wildcard-free pattern matches exactly itself. -/
theorem globMatch_noWild (l s : List Char) (hl : NoWild l) :
    globMatch l s = true ↔ s = l := by
  have h := globMatch_append_lit l [] s hl
  rw [List.append_nil] at h
  rw [h]
  constructor
  · rintro ⟨t, rfl, ht⟩
    rw [globMatch_nil, List.isEmpty_iff] at ht
    rw [ht, List.append_nil]
  · rintro rfl
    exact ⟨[], by simp [globMatch]⟩

/-- The fixed part of the secret's ARN pattern: everything before the six
`?` wildcards. -/
def secretArnStem (st : StackContext) (name : String) : String :=
  "arn:" ++ st.partition ++ ":secretsmanager:" ++ st.region ++ ":" ++ st.account
    ++ ":secret:" ++ name ++ "-"

/-- The ARN pattern the constructor builds is the fixed stem followed by six
single-character wildcards. -/
theorem secretArnLike_decomp (st : StackContext) (name : String) :
    (formatArn st "secretsmanager" "secret" ":" (name ++ "-??????")).data
      = (secretArnStem st name).data ++ List.replicate 6 '?' := by
  have h1 : ("arn:" : String).data = ['a', 'r', 'n', ':'] := rfl
  have h2 : (":" : String).data = [':'] := rfl
  have h3 : ("secretsmanager" : String).data
      = ['s', 'e', 'c', 'r', 'e', 't', 's', 'm', 'a', 'n', 'a', 'g', 'e', 'r'] := rfl
  have h4 : ("secret" : String).data = ['s', 'e', 'c', 'r', 'e', 't'] := rfl
  have h5 : (":secretsmanager:" : String).data
      = [':', 's', 'e', 'c', 'r', 'e', 't', 's', 'm', 'a', 'n', 'a', 'g', 'e', 'r', ':'] := rfl
  have h6 : (":secret:" : String).data = [':', 's', 'e', 'c', 'r', 'e', 't', ':'] := rfl
  have h7 : ("-" : String).data = ['-'] := rfl
  have h8 : ("-??????" : String).data = ['-', '?', '?', '?', '?', '?', '?'] := rfl
  have h9 : List.replicate 6 '?' = ['?', '?', '?', '?', '?', '?'] := rfl
  simp [formatArn, secretArnStem, String.data_append, h1, h2, h3, h4, h5, h6, h7, h8, h9]

/-- What the secret ARN pattern accepts: exactly the strings extending the
fixed stem by six characters. -/
theorem globMatch_secretArnLike (st : StackContext) (name : String) (t : List Char)
    (hs : NoWild (secretArnStem st name).data) :
    globMatch (formatArn st "secretsmanager" "secret" ":" (name ++ "-??????")).data t = true
      ↔ ∃ u, t = (secretArnStem st name).data ++ u ∧ u.length = 6 := by
  rw [secretArnLike_decomp st name, globMatch_append_lit _ _ _ hs]
  constructor
  · rintro ⟨u, rfl, hu⟩
    exact ⟨u, rfl, (globMatch_replicate_qmark 6 u).mp hu⟩
  · rintro ⟨u, rfl, hu⟩
    exact ⟨u, rfl, (globMatch_replicate_qmark 6 u).mpr hu⟩

/-- Sample stack context for concrete instantiations. -/
def sampleStack : StackContext :=
  { partition := "aws", region := "us-east-1", account := "123456789012" }

/-- Sample Lambda environment for concrete instantiations. -/
def sampleEnv : LambdaEnv :=
  { roleArn := "arn:aws:iam::123456789012:role/handler-role"
    functionName := "handler-fn"
    codeHash := "hash-1" }

/-- Sample props without an encryption key. -/
def sampleProps : RsaPrivateKeySecretProps :=
  { keySize := 2048, secretName := "db-root" }

/-- Sample props with an encryption key. -/
def samplePropsKms : RsaPrivateKeySecretProps :=
  { keySize := 2048, secretName := "db-root"
    secretEncryptionKey := some "arn:aws:kms:us-east-1:123456789012:key/k1" }

/-- C1: the dependency set of the secret's custom resource always holds the
edge to the execution role; with an encryption key it additionally holds the
edge to the separate key-grant `iam.Policy` object, which is attached to the
role as a distinct policy while the role's inline statements stay
key-free; and it never holds both `roleOp -> keyGrantOp` and
`keyGrantOp -> roleOp`. -/
theorem rsaPrivateKeySecret_dependency_edges (st : StackContext) (env : LambdaEnv)
    (props : RsaPrivateKeySecretProps) :
    (secretNode, roleNode) ∈ (rsaPrivateKeySecret st env props).dependencies
    ∧ (props.secretEncryptionKey ≠ none →
        (secretNode, keyGrantNode) ∈ (rsaPrivateKeySecret st env props).dependencies
        ∧ (rsaPrivateKeySecret st env props).grantPolicies.map IamPolicy.roles
            = [[env.roleArn]]
        ∧ (rsaPrivateKeySecret st env props).rolePolicyStatements.map PolicyStatement.actions
            = [["secretsmanager:CreateSecret", "secretsmanager:DeleteSecret",
                "secretsmanager:UpdateSecret"]])
    ∧ (props.secretEncryptionKey = none →
        (rsaPrivateKeySecret st env props).dependencies = [(secretNode, roleNode)])
    ∧ ¬((roleNode, keyGrantNode) ∈ (rsaPrivateKeySecret st env props).dependencies
        ∧ (keyGrantNode, roleNode) ∈ (rsaPrivateKeySecret st env props).dependencies) := by
  cases hk : props.secretEncryptionKey with
  | none =>
    refine ⟨?_, ?_, ?_, ?_⟩ <;>
      simp [rsaPrivateKeySecret, hk, secretNode, roleNode, keyGrantNode,
            PolicyStatement.addActions, PolicyStatement.addResource]
  | some k =>
    refine ⟨?_, ?_, ?_, ?_⟩ <;>
      simp [rsaPrivateKeySecret, hk, secretNode, roleNode, keyGrantNode,
            PolicyStatement.addActions, PolicyStatement.addResource]

/-- C5 counterexample: the constructor performs no local validation; the
spec with key size `0` and an empty name is dispatched to the provisioning
backend verbatim rather than rejected. -/
theorem invalid_spec_dispatched :
    (rsaPrivateKeySecret sampleStack sampleEnv
        { keySize := 0, secretName := "" }).request.keySize = 0
    ∧ (rsaPrivateKeySecret sampleStack sampleEnv
        { keySize := 0, secretName := "" }).request.secretName = "" :=
  ⟨rfl, rfl⟩

/-- C5 amended: the create operation performs no local validation at all —
for every spec, also one with a nonpositive key size or an empty secret
name, construction succeeds and the spec's fields are forwarded verbatim in
the provisioning request (validation is delegated to the backend). -/
theorem spec_forwarded_unvalidated (st : StackContext) (env : LambdaEnv)
    (props : RsaPrivateKeySecretProps) :
    (rsaPrivateKeySecret st env props).request.keySize = props.keySize
    ∧ (rsaPrivateKeySecret st env props).request.secretName = props.secretName
    ∧ (rsaPrivateKeySecret st env props).request.description = props.description
    ∧ (rsaPrivateKeySecret st env props).request.kmsKeyId = props.secretEncryptionKey :=
  ⟨rfl, rfl, rfl, rfl⟩

/-- C6: without an encryption key, exactly one inline statement lands on the
backend execution identity — create/delete/update scoped to the resolved
secret ARN pattern — and no key-related statement is attached anywhere. -/
theorem noKey_single_lifecycle (st : StackContext) (env : LambdaEnv)
    (props : RsaPrivateKeySecretProps)
    (hk : props.secretEncryptionKey = none) :
    (rsaPrivateKeySecret st env props).rolePolicyStatements.map PolicyStatement.actions
      = [["secretsmanager:CreateSecret", "secretsmanager:DeleteSecret",
          "secretsmanager:UpdateSecret"]]
    ∧ (rsaPrivateKeySecret st env props).rolePolicyStatements.map PolicyStatement.resources
      = [[(rsaPrivateKeySecret st env props).secretArnLike]]
    ∧ (rsaPrivateKeySecret st env props).keyResourcePolicyStatements = []
    ∧ (rsaPrivateKeySecret st env props).grantPolicies = [] := by
  refine ⟨?_, ?_, ?_, ?_⟩ <;>
    simp [rsaPrivateKeySecret, hk, PolicyStatement.addActions, PolicyStatement.addResource]

/-- C6 witness at the spec's scenario input. -/
theorem noKey_single_lifecycle_witness :
    (rsaPrivateKeySecret sampleStack sampleEnv sampleProps).rolePolicyStatements.map
        PolicyStatement.actions
      = [["secretsmanager:CreateSecret", "secretsmanager:DeleteSecret",
          "secretsmanager:UpdateSecret"]]
    ∧ (rsaPrivateKeySecret sampleStack sampleEnv sampleProps).rolePolicyStatements.map
        PolicyStatement.resources
      = [[(rsaPrivateKeySecret sampleStack sampleEnv sampleProps).secretArnLike]]
    ∧ (rsaPrivateKeySecret sampleStack sampleEnv sampleProps).keyResourcePolicyStatements = []
    ∧ (rsaPrivateKeySecret sampleStack sampleEnv sampleProps).grantPolicies = [] :=
  noKey_single_lifecycle sampleStack sampleEnv sampleProps rfl

/-- C8: the request's `resourceVersion` is the content hash of the handler
code directory; a changed hash changes the request even for an identical
spec, and an unchanged hash with an unchanged spec gives an identical
request. -/
theorem resourceVersion_forces_update (st : StackContext) (env1 env2 : LambdaEnv)
    (props : RsaPrivateKeySecretProps) :
    (rsaPrivateKeySecret st env1 props).request.resourceVersion = hashFileOrDirectory env1
    ∧ (hashFileOrDirectory env1 ≠ hashFileOrDirectory env2 →
        (rsaPrivateKeySecret st env1 props).request ≠ (rsaPrivateKeySecret st env2 props).request)
    ∧ (hashFileOrDirectory env1 = hashFileOrDirectory env2 →
        (rsaPrivateKeySecret st env1 props).request = (rsaPrivateKeySecret st env2 props).request) := by
  refine ⟨rfl, ?_, ?_⟩
  · intro hne heq
    exact hne (congrArg ProvisioningRequest.resourceVersion heq)
  · intro heq
    simp [rsaPrivateKeySecret, hashFileOrDirectory] at heq ⊢
    simp [heq]

/-- C9: the constructor mutates the caller's props record, writing the
default `Retain` when `deletionPolicy` was omitted, applies that value as
the custom resource's deletion policy, and for an input without a
`deletionPolicy` the record observed afterwards differs from the one
passed in. -/
theorem props_deletionPolicy_mutated (st : StackContext) (env : LambdaEnv)
    (props : RsaPrivateKeySecretProps) :
    (rsaPrivateKeySecret st env props).propsAfter
      = { props with
          deletionPolicy := some (props.deletionPolicy.getD DeletionPolicy.retain) }
    ∧ (rsaPrivateKeySecret st env props).appliedDeletionPolicy
      = props.deletionPolicy.getD DeletionPolicy.retain
    ∧ (props.deletionPolicy = none →
        (rsaPrivateKeySecret st env props).propsAfter ≠ props) := by
  refine ⟨rfl, rfl, ?_⟩
  intro hnone heq
  have h := congrArg RsaPrivateKeySecretProps.deletionPolicy heq
  rw [hnone] at h
  simp [rsaPrivateKeySecret] at h

/-- C7: the resolved ARN pattern is the stack-formatted ARN with service
`secretsmanager`, resource type `secret`, `':'` separator and resource name
`secretName ++ "-??????"`, and it matches exactly the ARNs that extend the
fixed stem `arn:<partition>:secretsmanager:<region>:<account>:secret:<secretName>-`
by six characters — no fewer, no more. -/
theorem secretArnLike_pattern (st : StackContext) (env : LambdaEnv)
    (props : RsaPrivateKeySecretProps)
    (hname : props.secretName ≠ "")
    (hw : NoWild (secretArnStem st props.secretName).data) :
    (rsaPrivateKeySecret st env props).secretArnLike
      = formatArn st "secretsmanager" "secret" ":" (props.secretName ++ "-??????")
    ∧ ∀ t : List Char,
        globMatch (rsaPrivateKeySecret st env props).secretArnLike.data t = true
          ↔ ∃ u, t = (secretArnStem st props.secretName).data ++ u ∧ u.length = 6 := by
  refine ⟨rfl, fun t => ?_⟩
  exact globMatch_secretArnLike st props.secretName t hw

/-- C7 witness at a concrete stack and secret name. -/
theorem secretArnLike_pattern_witness :
    (rsaPrivateKeySecret sampleStack sampleEnv sampleProps).secretArnLike
      = formatArn sampleStack "secretsmanager" "secret" ":"
          (sampleProps.secretName ++ "-??????")
    ∧ ∀ t : List Char,
        globMatch (rsaPrivateKeySecret sampleStack sampleEnv sampleProps).secretArnLike.data t
            = true
          ↔ ∃ u, t = (secretArnStem sampleStack sampleProps.secretName).data ++ u
              ∧ u.length = 6 :=
  secretArnLike_pattern sampleStack sampleEnv sampleProps (by decide) (by decide)

/-- Fields of a provisioned secret with an encryption key, for concrete
instantiations. -/
def sampleRef : SecretRef :=
  { secretArn := "arn:aws:secretsmanager:us-east-1:123456789012:secret:db-root-AbCdEf"
    secretArnLike := "arn:aws:secretsmanager:us-east-1:123456789012:secret:db-root-??????"
    masterKey := some "arn:aws:kms:us-east-1:123456789012:key/k1"
    region := "us-east-1" }

/-- Fields of a provisioned secret without an encryption key. -/
def sampleRefNoKey : SecretRef :=
  { secretArn := "arn:aws:secretsmanager:us-east-1:123456789012:secret:db-root-AbCdEf"
    secretArnLike := "arn:aws:secretsmanager:us-east-1:123456789012:secret:db-root-??????"
    masterKey := none
    region := "us-east-1" }

/-- C3: with an encryption key, `grantGetSecretValue` produces exactly three
statements — grantee-side `secretsmanager:GetSecretValue` on the secret ARN;
a resource-side `kms:Decrypt` on the key conditioned on `kms:ViaService` and
an `ArnLike` secret-reference match against the ARN pattern; and a
grantee-side `kms:Decrypt` on the exact key ARN conditioned on the same
`kms:ViaService` value and an `ArnEquals` secret-reference match against the
real secret ARN. -/
theorem grantGetSecretValue_with_key (self : SecretRef) (grantee k : String)
    (hk : self.masterKey = some k) :
    (grantGetSecretValue self grantee).granteeStatements
      = [{ actions := ["secretsmanager:GetSecretValue"], resources := [self.secretArn] },
         { actions := ["kms:Decrypt"], resources := [k],
           conditions := [⟨"StringEquals", "kms:ViaService", [viaService self.region]⟩,
                          ⟨"ArnEquals", "kms:EncryptionContext:SecretARN", [self.secretArn]⟩] }]
    ∧ (grantGetSecretValue self grantee).keyResourceStatements
      = [{ actions := ["kms:Decrypt"], resources := ["*"], principals := [grantee],
           conditions := [⟨"StringEquals", "kms:ViaService", [viaService self.region]⟩,
                          ⟨"ArnLike", "kms:EncryptionContext:SecretARN",
                            [self.secretArnLike]⟩] }] := by
  refine ⟨?_, ?_⟩ <;>
    simp [grantGetSecretValue, hk, PolicyStatement.addAction, PolicyStatement.addResource,
          PolicyStatement.addAllResources, PolicyStatement.addPrincipal,
          PolicyStatement.addCondition]

/-- C3 witness at a concrete secret and grantee. -/
theorem grantGetSecretValue_with_key_witness :
    (grantGetSecretValue sampleRef "grantee-role").granteeStatements
      = [{ actions := ["secretsmanager:GetSecretValue"], resources := [sampleRef.secretArn] },
         { actions := ["kms:Decrypt"],
           resources := ["arn:aws:kms:us-east-1:123456789012:key/k1"],
           conditions := [⟨"StringEquals", "kms:ViaService", [viaService sampleRef.region]⟩,
                          ⟨"ArnEquals", "kms:EncryptionContext:SecretARN",
                            [sampleRef.secretArn]⟩] }]
    ∧ (grantGetSecretValue sampleRef "grantee-role").keyResourceStatements
      = [{ actions := ["kms:Decrypt"], resources := ["*"], principals := ["grantee-role"],
           conditions := [⟨"StringEquals", "kms:ViaService", [viaService sampleRef.region]⟩,
                          ⟨"ArnLike", "kms:EncryptionContext:SecretARN",
                            [sampleRef.secretArnLike]⟩] }] :=
  grantGetSecretValue_with_key sampleRef "grantee-role"
    "arn:aws:kms:us-east-1:123456789012:key/k1" rfl

/-- C10: without an encryption key, `grantGetSecretValue` adds exactly one
statement — `secretsmanager:GetSecretValue` on the secret ARN, on the
grantee — and no KMS statement to any policy. -/
theorem grantGetSecretValue_without_key (self : SecretRef) (grantee : String)
    (hk : self.masterKey = none) :
    (grantGetSecretValue self grantee).granteeStatements
      = [{ actions := ["secretsmanager:GetSecretValue"], resources := [self.secretArn] }]
    ∧ (grantGetSecretValue self grantee).keyResourceStatements = [] := by
  refine ⟨?_, ?_⟩ <;>
    simp [grantGetSecretValue, hk, PolicyStatement.addAction, PolicyStatement.addResource]

/-- C10 witness at a concrete secret and grantee. -/
theorem grantGetSecretValue_without_key_witness :
    (grantGetSecretValue sampleRefNoKey "grantee-role").granteeStatements
      = [{ actions := ["secretsmanager:GetSecretValue"],
           resources := [sampleRefNoKey.secretArn] }]
    ∧ (grantGetSecretValue sampleRefNoKey "grantee-role").keyResourceStatements = [] :=
  grantGetSecretValue_without_key sampleRefNoKey "grantee-role" rfl

/-- C4: a second `grantGetSecretValue` for the same principal appends
statements of identical content, and the resulting policy state permits
exactly the same queries as after a single call — grant idempotence under
granted-permission semantics. -/
theorem grantGetSecretValue_idempotent (self : SecretRef) (grantee : String)
    (st0 : PolicyState) (q : AccessQuery) :
    (applyGrant self grantee (applyGrant self grantee st0)).granteePolicy
      = (applyGrant self grantee st0).granteePolicy
          ++ (grantGetSecretValue self grantee).granteeStatements
    ∧ policyPermits (applyGrant self grantee (applyGrant self grantee st0)).granteePolicy q
      = policyPermits (applyGrant self grantee st0).granteePolicy q
    ∧ policyPermits (applyGrant self grantee (applyGrant self grantee st0)).keyResourcePolicy q
      = policyPermits (applyGrant self grantee st0).keyResourcePolicy q := by
  refine ⟨rfl, ?_, ?_⟩ <;>
    simp [applyGrant, policyPermits, List.any_append, Bool.or_assoc, Bool.or_self]

/-- A match against the wildcard-free sentinel value forces equality. -/
theorem globMatchStr_sentinel (x : String)
    (h : globMatchStr "RequestToValidateKeyAccess" x = true) :
    x = "RequestToValidateKeyAccess" := by
  have hx := (globMatch_noWild ("RequestToValidateKeyAccess" : String).data x.data
    (by decide)).mp h
  exact String.ext hx

/-- C2: every key-use statement built for the backend's execution identity —
the resource-side statement on the key and the statement of the separate
grant policy — grants exactly `kms:Decrypt` and `kms:GenerateDataKey`, and
applies only in a context whose `kms:ViaService` equals the secret-store
endpoint of the stack's region and whose encryption-context secret
reference matches the resolved ARN pattern or equals the sentinel
`RequestToValidateKeyAccess`. -/
theorem keyUse_statements_scoped (st : StackContext) (env : LambdaEnv)
    (props : RsaPrivateKeySecretProps) (k : String)
    (hk : props.secretEncryptionKey = some k)
    (s : PolicyStatement)
    (hs : s ∈ (rsaPrivateKeySecret st env props).keyResourcePolicyStatements
       ∨ ∃ pol ∈ (rsaPrivateKeySecret st env props).grantPolicies, s ∈ pol.statements)
    (c : KeyUseContext)
    (happ : stmtApplies c s = true) :
    s.actions = ["kms:Decrypt", "kms:GenerateDataKey"]
    ∧ c.viaSvc = viaService st.region
    ∧ (globMatchStr (rsaPrivateKeySecret st env props).secretArnLike c.secretARN = true
       ∨ c.secretARN = "RequestToValidateKeyAccess") := by
  simp only [rsaPrivateKeySecret, hk] at hs
  simp [PolicyStatement.addActions, PolicyStatement.addResource,
        PolicyStatement.addAllResources, PolicyStatement.addAwsPrincipal,
        PolicyStatement.addCondition, PolicyStatement.describe] at hs
  rcases hs with rfl | rfl
  · simp [stmtApplies, condHolds, lookupCtx] at happ
    obtain ⟨hvia, hlike⟩ := happ
    refine ⟨rfl, hvia, Or.inl ?_⟩
    simpa [rsaPrivateKeySecret, hk] using hlike
  · simp [stmtApplies, condHolds, lookupCtx] at happ
    obtain ⟨hvia, hlike⟩ := happ
    refine ⟨rfl, hvia, ?_⟩
    rcases hlike with hpat | hsent
    · exact Or.inl (by simpa [rsaPrivateKeySecret, hk] using hpat)
    · exact Or.inr (globMatchStr_sentinel _ hsent)

/-- A concrete request context: a call via the regional secret-store
endpoint whose encryption context carries the sentinel value. -/
def sampleCtx : KeyUseContext :=
  { viaSvc := "secretsmanager.us-east-1.amazonaws.com"
    secretARN := "RequestToValidateKeyAccess" }

/-- The separate grant policy's statement as built for `samplePropsKms`. -/
def sampleGrantStmt : PolicyStatement :=
  { actions := ["kms:Decrypt", "kms:GenerateDataKey"]
    resources := ["arn:aws:kms:us-east-1:123456789012:key/k1"]
    conditions :=
      [⟨"StringEquals", "kms:ViaService", ["secretsmanager.us-east-1.amazonaws.com"]⟩,
       ⟨"StringLike", "kms:EncryptionContext:SecretARN",
         ["arn:aws:secretsmanager:us-east-1:123456789012:secret:db-root-??????",
          "RequestToValidateKeyAccess"]⟩]
    sid := some "AWSSecretsManagerdbrootCMK" }

/-- C2 witness: the grant policy's statement at a concrete stack, applying
in a sentinel-carrying context. -/
theorem keyUse_statements_scoped_witness :
    sampleGrantStmt.actions = ["kms:Decrypt", "kms:GenerateDataKey"]
    ∧ sampleCtx.viaSvc = viaService sampleStack.region
    ∧ (globMatchStr (rsaPrivateKeySecret sampleStack sampleEnv samplePropsKms).secretArnLike
          sampleCtx.secretARN = true
       ∨ sampleCtx.secretARN = "RequestToValidateKeyAccess") :=
  keyUse_statements_scoped sampleStack sampleEnv samplePropsKms
    "arn:aws:kms:us-east-1:123456789012:key/k1" rfl sampleGrantStmt (by decide)
    sampleCtx
    (by
      have hsent : globMatchStr "RequestToValidateKeyAccess" "RequestToValidateKeyAccess"
          = true :=
        (globMatch_noWild ("RequestToValidateKeyAccess" : String).data
          ("RequestToValidateKeyAccess" : String).data (by decide)).mpr rfl
      simp [stmtApplies, condHolds, lookupCtx, sampleCtx, sampleGrantStmt, hsent])
